import Mathlib

/-!
Verification of the node-graph evaluation engine of the block-egui
repository (src/app.rs), against its natural-language specification.

The engine is embedded shallowly:

* slotmap arenas (nodes, inputs, outputs), the `SecondaryMap` of
  connections and the `HashMap` output cache are all modelled as
  association lists with first-match lookup, which is exactly their
  observable get/insert behaviour;
* the `f64` Weibull parameters are modelled as rationals: the evaluator
  performs no arithmetic on them whatsoever, and every literal appearing
  in the source (0.5, 200.0) is exactly representable;
* a Rust panic (a failing `expect` or a slotmap index on a stale key) is
  a distinct outcome, as is a returned `anyhow` error;
* the recursion of `evaluate_node` is not structurally bounded in the
  source (there is no cycle check), so the embedding takes a fuel
  parameter; exhausting the fuel is reported as its own outcome and
  models unbounded recursion of the source program.

Note on types: the source file as written is ill-typed — the
no-connection branch of `evaluate_input` returns the input's
`NodeParameters` value where the signature promises `NodeType`.  The
embedding therefore evaluates into the least sum type `Value` that
gives every branch of the written code a meaning.
-/

namespace BlockEgui

/-- Slotmap key of a node (modelled as a bare natural number). -/
abbrev NodeId := Nat

/-- Slotmap key of an input parameter. -/
abbrev InputId := Nat

/-- Slotmap key of an output parameter. -/
abbrev OutputId := Nat

/-- Weibull parameters stored on every node input (source struct
NodeParameters with fields shape, scale, time_steps). -/
structure NodeParameters where
  shape : Rat
  scale : Rat
  time_steps : Nat
deriving DecidableEq

/-- Data-type tag of every port (source enum NodeType, one variant). -/
inductive NodeType where
  | Component
deriving DecidableEq

/-- Kinds of input parameters, from the egui_node_graph crate. -/
inductive InputParamKind where
  | ConnectionOnly
  | ConnectionOrConstant
  | ConstantOnly
deriving DecidableEq

/-- The value domain of the evaluator.  The source declares the cache and
the evaluation result as NodeType, but the unconnected-input branch of
evaluate_input returns the input's NodeParameters value, so the written
code only has a semantics over this sum. -/
inductive Value where
  | component : Value
  | params : NodeParameters → Value
deriving DecidableEq

/-- Error produced by Node::get_input and Node::get_output of the
egui_node_graph crate when a node has no parameter of the asked name. -/
inductive EguiGraphError where
  | NoParameterNamed : NodeId → String → EguiGraphError
deriving DecidableEq

/-- Outcome of running a fragment of the evaluator.  ok and err mirror
anyhow::Result; panicked models a Rust panic (a failing expect, or a
slotmap index on a missing key); fuelOut reports that the fuel bound of
the embedding is exhausted, i.e. the source recursion did not bottom out
within the bound. -/
inductive Outcome (α : Type) where
  | ok : α → Outcome α
  | err : EguiGraphError → Outcome α
  | panicked : String → Outcome α
  | fuelOut : Outcome α
deriving DecidableEq

/-- True exactly on a returned (not panicked) error. -/
def Outcome.isErr {α : Type} : Outcome α → Bool
  | Outcome.err _ => true
  | _ => false

/-- Message of the panic raised by indexing a slotmap with a missing key. -/
def keyPanicMsg : String := "invalid SlotMap key"

/-- Message of the expect in Evaluator::node_input. -/
def failedMsg : String := "failed"

/-- Message of the expect in the cache-miss branch of evaluate_input. -/
def cachePanicMsg : String := "Cache should be populated"

/-- Name of the first input port built for a CreateComponent node. -/
def nameA : String := "A"

/-- Name of the second input port built for a CreateComponent node. -/
def nameB : String := "B"

/-- Name of the single output port built for a CreateComponent node. -/
def nameOut : String := "out"

/-- First-match lookup in an association list: the observable get of a
slotmap, a SecondaryMap, or a HashMap. -/
def slotGet {α : Type} : List (Nat × α) → Nat → Option α
  | [], _ => none
  | p :: rest, k => if p.1 = k then some p.2 else slotGet rest k

/-- First-match lookup by name in a node's ordered port list, the search
performed by Node::get_input and Node::get_output. -/
def portGet : List (String × Nat) → String → Option Nat
  | [], _ => none
  | p :: rest, n => if p.1 = n then some p.2 else portGet rest n

/-- The single node template of the application (source enum NodeTemplate). -/
inductive NodeTemplate where
  | CreateComponent
deriving DecidableEq

/-- Per-node user data (source struct NodeData), recording the template. -/
structure NodeData where
  template : NodeTemplate
deriving DecidableEq

/-- A node of the graph: its user data and its ordered, named input and
output port lists (the relevant fields of egui_node_graph's Node). -/
structure Node where
  user_data : NodeData
  inputs : List (String × InputId)
  outputs : List (String × OutputId)
deriving DecidableEq

/-- An input parameter (the fields of egui_node_graph's InputParam that
exist independently of the UI). -/
structure InputParam where
  node : NodeId
  typ : NodeType
  value : NodeParameters
  kind : InputParamKind
deriving DecidableEq

/-- An output parameter. -/
structure OutputParam where
  node : NodeId
  typ : NodeType
deriving DecidableEq

/-- The graph: arenas of nodes, input and output parameters, and the
input-to-output connection map (fan-in one by construction of the map). -/
structure Graph where
  nodes : List (NodeId × Node)
  inputs : List (InputId × InputParam)
  outputs : List (OutputId × OutputParam)
  connections : List (InputId × OutputId)
deriving DecidableEq

/-- Node::get_input: first input port of the given name, if any. -/
def Node.get_input (n : Node) (name : String) : Option InputId :=
  portGet n.inputs name

/-- Node::get_output: first output port of the given name, if any. -/
def Node.get_output (n : Node) (name : String) : Option OutputId :=
  portGet n.outputs name

/-- Graph::connection: the output connected to the given input, if any. -/
def Graph.connection (g : Graph) (input : InputId) : Option OutputId :=
  slotGet g.connections input

/-- The per-pass output cache (source type OutputsCache, a HashMap keyed
by output id; its values are NodeType in the source signature). -/
abbrev OutputsCache := List (OutputId × Value)

/-- HashMap::insert on the cache: the inserted pair shadows any earlier
binding of the same key under first-match lookup. -/
def cacheInsert (c : OutputsCache) (k : OutputId) (v : Value) : OutputsCache :=
  (k, v) :: c

/-- What the cache-miss branch of evaluate_input does with the result of
its recursive evaluate_node call: propagate a failure through the
question-mark operator, otherwise read the now supposedly populated
cache entry, with the expect on the read panicking when the entry is
still absent. -/
def resolve_after_eval (other_output_id : OutputId)
    (r : Outcome Value × OutputsCache) : Outcome Value × OutputsCache :=
  match r with
  | (Outcome.ok _, cache2) =>
    match slotGet cache2 other_output_id with
    | some v => (Outcome.ok v, cache2)
    | none => (Outcome.panicked cachePanicMsg, cache2)
  | (Outcome.err e, cache2) => (Outcome.err e, cache2)
  | (Outcome.panicked m, cache2) => (Outcome.panicked m, cache2)
  | (Outcome.fuelOut, cache2) => (Outcome.fuelOut, cache2)

/-- Body of the free function evaluate_input of src/app.rs.  The
recursive call to evaluate_node is abstracted as evalNode so the
recursion can be tied with a fuel parameter below.  All three slotmap
indexing operations of the source (graph of node_id, graph of
other_output_id, graph of input_id) panic on a missing key. -/
def evaluate_input_core (evalNode : NodeId → OutputsCache → Outcome Value × OutputsCache)
    (graph : Graph) (node_id : NodeId) (param_name : String)
    (outputs_cache : OutputsCache) : Outcome Value × OutputsCache :=
  match slotGet graph.nodes node_id with
  | none => (Outcome.panicked keyPanicMsg, outputs_cache)
  | some node =>
    match node.get_input param_name with
    | none => (Outcome.err (EguiGraphError.NoParameterNamed node_id param_name), outputs_cache)
    | some input_id =>
      match graph.connection input_id with
      | some other_output_id =>
        match slotGet outputs_cache other_output_id with
        | some other_value => (Outcome.ok other_value, outputs_cache)
        | none =>
          match slotGet graph.outputs other_output_id with
          | none => (Outcome.panicked keyPanicMsg, outputs_cache)
          | some out_param =>
            resolve_after_eval other_output_id (evalNode out_param.node outputs_cache)
      | none =>
        match slotGet graph.inputs input_id with
        | none => (Outcome.panicked keyPanicMsg, outputs_cache)
        | some input_param => (Outcome.ok (Value.params input_param.value), outputs_cache)

/-- Evaluator::node_input of src/app.rs wraps evaluate_input in
Ok(... .expect(failed)): a returned error becomes a panic, every other
outcome passes through. -/
def node_input_core (r : Outcome Value × OutputsCache) : Outcome Value × OutputsCache :=
  match r with
  | (Outcome.ok v, c) => (Outcome.ok v, c)
  | (Outcome.err _, c) => (Outcome.panicked failedMsg, c)
  | (Outcome.panicked m, c) => (Outcome.panicked m, c)
  | (Outcome.fuelOut, c) => (Outcome.fuelOut, c)

/-- The question-mark operator on a statement of the form
let a = evaluator.node_input(name)? — an ok result continues with the
threaded cache (the bound values a and b are never used by the source),
any other outcome returns immediately. -/
def and_then (r : Outcome Value × OutputsCache)
    (k : OutputsCache → Outcome Value × OutputsCache) : Outcome Value × OutputsCache :=
  match r with
  | (Outcome.ok _, cache1) => k cache1
  | r => r

/-- Body of pub fn evaluate_node of src/app.rs: index the node (panicking
on a missing key), then, for the single template CreateComponent,
evaluate inputs A and B and finally return node_input(out) — the source
resolves the name out through the input-lookup path and never calls
populate_output. -/
def evaluate_node_core (evalNode : NodeId → OutputsCache → Outcome Value × OutputsCache)
    (graph : Graph) (node_id : NodeId)
    (outputs_cache : OutputsCache) : Outcome Value × OutputsCache :=
  match slotGet graph.nodes node_id with
  | none => (Outcome.panicked keyPanicMsg, outputs_cache)
  | some node =>
    match node.user_data.template with
    | NodeTemplate.CreateComponent =>
      and_then (node_input_core (evaluate_input_core evalNode graph node_id nameA outputs_cache))
        (fun cache1 =>
          and_then (node_input_core (evaluate_input_core evalNode graph node_id nameB cache1))
            (fun cache2 =>
              node_input_core (evaluate_input_core evalNode graph node_id nameOut cache2)))

/-- The fueled evaluator: evaluate_node of src/app.rs, with the fuel
counting the depth of nested evaluate_node activations that the source
would create on the Rust call stack. -/
def evaluate_node : Nat → Graph → NodeId → OutputsCache → Outcome Value × OutputsCache
  | 0, _, _, outputs_cache => (Outcome.fuelOut, outputs_cache)
  | fuel + 1, graph, node_id, outputs_cache =>
    evaluate_node_core (fun n c => evaluate_node fuel graph n c) graph node_id outputs_cache

/-- The free function evaluate_input of src/app.rs at a given fuel. -/
def evaluate_input (fuel : Nat) (graph : Graph) (node_id : NodeId) (param_name : String)
    (outputs_cache : OutputsCache) : Outcome Value × OutputsCache :=
  evaluate_input_core (fun n c => evaluate_node fuel graph n c) graph node_id param_name outputs_cache

/-- Evaluator::node_input of src/app.rs at a given fuel. -/
def node_input (fuel : Nat) (graph : Graph) (node_id : NodeId) (param_name : String)
    (outputs_cache : OutputsCache) : Outcome Value × OutputsCache :=
  node_input_core (evaluate_input fuel graph node_id param_name outputs_cache)

/-- The free function populate_output of src/app.rs: look the output port
up by name and insert the value into the cache under its id, returning
the value. -/
def populate_output (graph : Graph) (outputs_cache : OutputsCache) (node_id : NodeId)
    (param_name : String) (value : Value) : Outcome Value × OutputsCache :=
  match slotGet graph.nodes node_id with
  | none => (Outcome.panicked keyPanicMsg, outputs_cache)
  | some node =>
    match node.get_output param_name with
    | none => (Outcome.err (EguiGraphError.NoParameterNamed node_id param_name), outputs_cache)
    | some output_id => (Outcome.ok value, cacheInsert outputs_cache output_id value)

/-- The empty graph. -/
def Graph.empty : Graph := ⟨[], [], [], []⟩

/-- Graph::add_node of the egui_node_graph crate, with the fresh slotmap
key supplied explicitly: a node with the given template and no ports yet. -/
def add_node (g : Graph) (node_id : NodeId) (t : NodeTemplate) : Graph :=
  { g with nodes := (node_id, ⟨⟨t⟩, [], []⟩) :: g.nodes }

/-- Apply a function to the node stored under the given id. -/
def mapNode (g : Graph) (node_id : NodeId) (f : Node → Node) : Graph :=
  { g with nodes := g.nodes.map (fun p => if p.1 = node_id then (p.1, f p.2) else p) }

/-- Graph::add_input_param with the fresh key supplied explicitly: create
the parameter in the input arena and append its name to the node's
ordered input list. -/
def add_input_param (g : Graph) (node_id : NodeId) (name : String) (typ : NodeType)
    (value : NodeParameters) (kind : InputParamKind) (input_id : InputId) : Graph :=
  mapNode { g with inputs := (input_id, ⟨node_id, typ, value, kind⟩) :: g.inputs }
    node_id (fun n => { n with inputs := n.inputs ++ [(name, input_id)] })

/-- Graph::add_output_param with the fresh key supplied explicitly. -/
def add_output_param (g : Graph) (node_id : NodeId) (name : String) (typ : NodeType)
    (output_id : OutputId) : Graph :=
  mapNode { g with outputs := (output_id, ⟨node_id, typ⟩) :: g.outputs }
    node_id (fun n => { n with outputs := n.outputs ++ [(name, output_id)] })

/-- The literal parameters that build_node of src/app.rs stores on every
input it creates (shape 0.5, scale 200.0, time_steps 730). -/
def defaultLiteral : NodeParameters := ⟨1 / 2, 200, 730⟩

/-- NodeTemplateTrait::build_node of src/app.rs: for CreateComponent,
declare inputs A and B (connection-only, carrying the default literal)
and the single output named out. -/
def build_node (g : Graph) (node_id : NodeId) (t : NodeTemplate)
    (a_id b_id : InputId) (out_id : OutputId) : Graph :=
  match t with
  | NodeTemplate.CreateComponent =>
    add_output_param
      (add_input_param
        (add_input_param g node_id nameA NodeType.Component defaultLiteral
          InputParamKind.ConnectionOnly a_id)
        node_id nameB NodeType.Component defaultLiteral InputParamKind.ConnectionOnly b_id)
      node_id nameOut NodeType.Component out_id

/-- Graph::add_connection: record the edge from an output to an input;
the SecondaryMap insert shadows any earlier edge into the same input. -/
def add_connection (g : Graph) (output : OutputId) (input : InputId) : Graph :=
  { g with connections := (input, output) :: g.connections }

/-- Create one CreateComponent node the way the application does: add the
node, then run build_node on it. -/
def newComponentNode (g : Graph) (node_id : NodeId) (a_id b_id : InputId)
    (out_id : OutputId) : Graph :=
  build_node (add_node g node_id NodeTemplate.CreateComponent) node_id
    NodeTemplate.CreateComponent a_id b_id out_id

/-- A single CreateComponent node (id 0, inputs 10 and 11, output 20)
with no connections: a leaf whose inputs are pure literals. -/
def g_leaf : Graph := newComponentNode Graph.empty 0 10 11 20

/-- Two CreateComponent nodes 0 and 1; input A (id 12) of node 1 is
connected to the output (id 20) of node 0.  The closest realizable
version of the specification's two-node source-plus-identity scenario. -/
def g_pair : Graph :=
  add_connection (newComponentNode (newComponentNode Graph.empty 0 10 11 20) 1 12 13 21) 20 12

/-- Two CreateComponent nodes forming a connection cycle: input A (10) of
node 0 is fed by the output (21) of node 1, and input A (12) of node 1 is
fed by the output (20) of node 0. -/
def g_cycle : Graph :=
  add_connection
    (add_connection (newComponentNode (newComponentNode Graph.empty 0 10 11 20) 1 12 13 21)
      21 10)
    20 12

/-- A diamond: nodes 1 and 2 both read the output of node 0, and node 3
reads the outputs of nodes 1 and 2. -/
def g_diamond : Graph :=
  add_connection
    (add_connection
      (add_connection
        (add_connection
          (newComponentNode
            (newComponentNode
              (newComponentNode (newComponentNode Graph.empty 0 10 11 20) 1 12 13 21)
              2 14 15 22)
            3 16 17 23)
          20 12)
        20 14)
      21 16)
    22 17

/-- Two caches are observably equal when every lookup agrees. -/
def cacheEquiv (c1 c2 : OutputsCache) : Prop :=
  ∀ k, slotGet c1 k = slotGet c2 k

/-- Two graphs agree on everything the evaluator can observe except
possibly the literal values stored on connected inputs: same nodes, same
output arena, same connections, and the same literal (including
presence) on every input that has no connection. -/
def litAgree (g1 g2 : Graph) : Prop :=
  g1.nodes = g2.nodes ∧ g1.outputs = g2.outputs ∧ g1.connections = g2.connections ∧
  ∀ iid, g1.connection iid = none →
    (slotGet g1.inputs iid).map InputParam.value = (slotGet g2.inputs iid).map InputParam.value

/-- Overwrite the inline literal stored on one input port (the effect of
editing the value widget of that port). -/
def setInputValue (g : Graph) (iid : InputId) (v : NodeParameters) : Graph :=
  { g with inputs := g.inputs.map (fun p => if p.1 = iid then (p.1, { p.2 with value := v }) else p) }

/-- True when no node of the graph has an input port named out; every
graph assembled from build_node alone satisfies this, since build_node
declares out only as an output. -/
def noInputNamedOut (g : Graph) : Bool :=
  g.nodes.all (fun p => (p.2.get_input nameOut).isNone)

/-- Rewriting the entries of an association list at one key only does
not change lookups at any other key. -/
theorem slotGet_map_update_ne {α : Type} (l : List (Nat × α)) (iid k : Nat) (f : α → α)
    (hk : k ≠ iid) :
    slotGet (l.map (fun p => if p.1 = iid then (p.1, f p.2) else p)) k = slotGet l k := by
  induction l with
  | nil => rfl
  | cons p rest ih =>
    by_cases hp : p.1 = iid
    · have hpk : ¬ p.1 = k := fun h => hk (by rw [← h, hp])
      simp only [List.map_cons, if_pos hp, slotGet, if_neg hpk]
      exact ih
    · by_cases hpk : p.1 = k
      · simp only [List.map_cons, if_neg hp, slotGet, if_pos hpk]
      · simp only [List.map_cons, if_neg hp, slotGet, if_neg hpk]
        exact ih

/-- A successful slotmap lookup returns a member of the list. -/
theorem slotGet_mem {α : Type} (l : List (Nat × α)) (k : Nat) (a : α)
    (h : slotGet l k = some a) : (k, a) ∈ l := by
  induction l with
  | nil => simp [slotGet] at h
  | cons p rest ih =>
    by_cases hp : p.1 = k
    · simp only [slotGet, if_pos hp] at h
      injection h with h2
      subst h2
      have hp2 : (k, p.2) = p := by rw [← hp]
      rw [hp2]
      exact List.mem_cons_self p rest
    · simp only [slotGet, if_neg hp] at h
      exact List.mem_cons_of_mem _ (ih h)

/-- Continuing after an ok result with a cache-preserving continuation
preserves the cache. -/
theorem and_then_snd (r : Outcome Value × OutputsCache)
    (k : OutputsCache → Outcome Value × OutputsCache) (c : OutputsCache)
    (hr : r.2 = c) (hk : (k c).2 = c) : (and_then r k).2 = c := by
  rcases r with ⟨o, d⟩
  simp only at hr
  subst hr
  cases o with
  | ok v => exact hk
  | err e => rfl
  | panicked m => rfl
  | fuelOut => rfl

/-- node_input passes the cache of its evaluate_input call through. -/
theorem node_input_core_snd (r : Outcome Value × OutputsCache) :
    (node_input_core r).2 = r.2 := by
  rcases r with ⟨o, c⟩
  cases o <;> rfl

/-- node_input never returns an error outcome: the expect turns a
returned error into a panic. -/
theorem node_input_core_not_err (r : Outcome Value × OutputsCache) :
    (node_input_core r).1.isErr = false := by
  rcases r with ⟨o, c⟩
  cases o <;> rfl

/-- node_input only depends on the outcome of its evaluate_input call,
as far as its own outcome is concerned. -/
theorem node_input_core_fst_congr (r1 r2 : Outcome Value × OutputsCache)
    (h : r1.1 = r2.1) : (node_input_core r1).1 = (node_input_core r2).1 := by
  rcases r1 with ⟨o1, c1⟩
  rcases r2 with ⟨o2, c2⟩
  simp only at h
  subst h
  cases o1 <;> rfl

/-- resolve_after_eval passes the cache of the recursive call through. -/
theorem resolve_after_eval_snd (oid : OutputId) (r : Outcome Value × OutputsCache) :
    (resolve_after_eval oid r).2 = r.2 := by
  rcases r with ⟨o, c⟩
  cases o with
  | ok v => simp only [resolve_after_eval]; cases slotGet c oid <;> rfl
  | err e => rfl
  | panicked m => rfl
  | fuelOut => rfl

/-- Outcome congruence for resolve_after_eval, given that the recursive
calls returned equal outcomes and caches with an agreeing lookup at the
connected output. -/
theorem resolve_after_eval_fst_congr (oid : OutputId)
    (r1 r2 : Outcome Value × OutputsCache)
    (ho : r1.1 = r2.1) (hcc : slotGet r1.2 oid = slotGet r2.2 oid) :
    (resolve_after_eval oid r1).1 = (resolve_after_eval oid r2).1 := by
  rcases r1 with ⟨o1, d1⟩
  rcases r2 with ⟨o2, d2⟩
  simp only at ho hcc
  subst ho
  cases o1 with
  | ok v =>
    simp only [resolve_after_eval]
    rw [hcc]
    cases slotGet d2 oid <;> rfl
  | err e => rfl
  | panicked m => rfl
  | fuelOut => rfl

/-- evaluate_input never modifies the cache, provided the recursive
evaluator it is given never does. -/
theorem evaluate_input_core_snd (e : NodeId → OutputsCache → Outcome Value × OutputsCache)
    (he : ∀ n c, (e n c).2 = c) (g : Graph) (nid : NodeId) (name : String)
    (c : OutputsCache) : (evaluate_input_core e g nid name c).2 = c := by
  unfold evaluate_input_core
  cases hnode : slotGet g.nodes nid with
  | none => rfl
  | some node =>
    dsimp only
    cases hgi : node.get_input name with
    | none => rfl
    | some iid =>
      dsimp only
      cases hconn : g.connection iid with
      | some oid =>
        dsimp only
        cases hcache : slotGet c oid with
        | some v => rfl
        | none =>
          dsimp only
          cases hout : slotGet g.outputs oid with
          | none => rfl
          | some op =>
            dsimp only
            rw [resolve_after_eval_snd, he]
      | none =>
        dsimp only
        cases hinp : slotGet g.inputs iid with
        | none => rfl
        | some p => rfl

/-- evaluate_node never modifies the cache, provided its recursive calls
never do: the source never calls populate_output, which holds the only
cache insertion. -/
theorem evaluate_node_core_snd (e : NodeId → OutputsCache → Outcome Value × OutputsCache)
    (he : ∀ n c, (e n c).2 = c) (g : Graph) (nid : NodeId)
    (c : OutputsCache) : (evaluate_node_core e g nid c).2 = c := by
  have hin : ∀ name cc, (node_input_core (evaluate_input_core e g nid name cc)).2 = cc := by
    intro name cc
    rw [node_input_core_snd, evaluate_input_core_snd e he]
  unfold evaluate_node_core
  cases hnode : slotGet g.nodes nid with
  | none => rfl
  | some node =>
    dsimp only
    cases ht : node.user_data.template
    exact and_then_snd _ _ c (hin nameA c)
      (and_then_snd _ _ c (hin nameB c) (hin nameOut c))

/-- The fueled evaluator returns the cache it was given, unchanged, at
every fuel: no run of evaluate_node ever inserts a cache entry. -/
theorem evaluate_node_snd (fuel : Nat) (g : Graph) (nid : NodeId) (c : OutputsCache) :
    (evaluate_node fuel g nid c).2 = c := by
  induction fuel generalizing nid c with
  | zero => rfl
  | succ fuel ih =>
    show (evaluate_node_core (fun n c => evaluate_node fuel g n c) g nid c).2 = c
    exact evaluate_node_core_snd _ (fun n c => ih n c) g nid c

/-- evaluate_input returns the cache it was given, unchanged. -/
theorem evaluate_input_snd (fuel : Nat) (g : Graph) (nid : NodeId) (name : String)
    (c : OutputsCache) : (evaluate_input fuel g nid name c).2 = c :=
  evaluate_input_core_snd _ (fun n c => evaluate_node_snd fuel g n c) g nid name c

/-- node_input returns the cache it was given, unchanged. -/
theorem node_input_snd (fuel : Nat) (g : Graph) (nid : NodeId) (name : String)
    (c : OutputsCache) : (node_input fuel g nid name c).2 = c := by
  show (node_input_core (evaluate_input fuel g nid name c)).2 = c
  rw [node_input_core_snd, evaluate_input_snd]

/-- A failing first statement short-circuits the question-mark chain. -/
theorem and_then_fuelOut (r : Outcome Value × OutputsCache)
    (k : OutputsCache → Outcome Value × OutputsCache)
    (h : r.1 = Outcome.fuelOut) : (and_then r k).1 = Outcome.fuelOut := by
  rcases r with ⟨o, d⟩
  simp only at h
  subst h
  rfl

/-- A question-mark chain whose continuation never returns ok never
returns ok itself. -/
theorem and_then_ne_ok (r : Outcome Value × OutputsCache)
    (k : OutputsCache → Outcome Value × OutputsCache) (v : Value)
    (hk : ∀ d, (k d).1 ≠ Outcome.ok v) : (and_then r k).1 ≠ Outcome.ok v := by
  rcases r with ⟨o, d⟩
  cases o with
  | ok w => exact hk d
  | err e => exact fun h => Outcome.noConfusion h
  | panicked m => exact fun h => Outcome.noConfusion h
  | fuelOut => exact fun h => Outcome.noConfusion h

/-- A question-mark chain whose head and continuation never return an
error value never returns one itself. -/
theorem and_then_not_err (r : Outcome Value × OutputsCache)
    (k : OutputsCache → Outcome Value × OutputsCache)
    (hr : r.1.isErr = false) (hk : ∀ d, (k d).1.isErr = false) :
    (and_then r k).1.isErr = false := by
  rcases r with ⟨o, d⟩
  cases o with
  | ok w => exact hk d
  | err e => simp [Outcome.isErr] at hr
  | panicked m => rfl
  | fuelOut => rfl

/-- Outcome congruence for the question-mark chain. -/
theorem and_then_fst_congr (r1 r2 : Outcome Value × OutputsCache)
    (k1 k2 : OutputsCache → Outcome Value × OutputsCache)
    (ho : r1.1 = r2.1) (hk : (k1 r1.2).1 = (k2 r2.2).1) :
    (and_then r1 k1).1 = (and_then r2 k2).1 := by
  rcases r1 with ⟨o1, d1⟩
  rcases r2 with ⟨o2, d2⟩
  simp only at ho hk
  subst ho
  cases o1 with
  | ok v => exact hk
  | err e => rfl
  | panicked m => rfl
  | fuelOut => rfl

/-- litAgree is reflexive. -/
theorem litAgree_refl (g : Graph) : litAgree g g :=
  ⟨rfl, rfl, rfl, fun _ _ => rfl⟩

/-- Overwriting the literal of an input that has a connection yields a
graph the evaluator cannot distinguish from the original. -/
theorem litAgree_setInputValue (g : Graph) (iid : InputId) (oid : OutputId)
    (v : NodeParameters) (h : g.connection iid = some oid) :
    litAgree (setInputValue g iid v) g := by
  refine ⟨rfl, rfl, rfl, ?_⟩
  intro j hj
  have hji : j ≠ iid := by
    intro he
    rw [he] at hj
    rw [show (setInputValue g iid v).connection iid = g.connection iid from rfl, h] at hj
    exact Option.noConfusion hj
  show (slotGet ((setInputValue g iid v).inputs) j).map InputParam.value
      = (slotGet g.inputs j).map InputParam.value
  rw [show (setInputValue g iid v).inputs
      = g.inputs.map (fun p => if p.1 = iid then (p.1, { p.2 with value := v }) else p) from rfl]
  rw [slotGet_map_update_ne g.inputs iid j (fun q => { q with value := v }) hji]

/-- Outcome congruence for evaluate_input over graphs that agree on
everything but connected literals and over observably equal caches,
given a congruent, cache-preserving recursive evaluator. -/
theorem evaluate_input_core_fst_congr
    (e1 e2 : NodeId → OutputsCache → Outcome Value × OutputsCache)
    (g1 g2 : Graph) (hg : litAgree g1 g2)
    (hee : ∀ n c1 c2, cacheEquiv c1 c2 → (e1 n c1).1 = (e2 n c2).1)
    (hc1 : ∀ n c, (e1 n c).2 = c) (hc2 : ∀ n c, (e2 n c).2 = c)
    (nid : NodeId) (name : String) (c1 c2 : OutputsCache) (hcc : cacheEquiv c1 c2) :
    (evaluate_input_core e1 g1 nid name c1).1 = (evaluate_input_core e2 g2 nid name c2).1 := by
  obtain ⟨hn, ho, hco, hiv⟩ := hg
  have hconn : Graph.connection g1 = Graph.connection g2 := by
    funext i
    unfold Graph.connection
    rw [hco]
  unfold evaluate_input_core
  rw [hn, ho, hconn]
  cases hnode : slotGet g2.nodes nid with
  | none => rfl
  | some node =>
    dsimp only
    cases hgi : node.get_input name with
    | none => rfl
    | some iid =>
      dsimp only
      cases hcn : Graph.connection g2 iid with
      | some oid =>
        dsimp only
        rw [← hcc oid]
        cases hcache : slotGet c1 oid with
        | some v => rfl
        | none =>
          dsimp only
          cases hout : slotGet g2.outputs oid with
          | none => rfl
          | some op =>
            dsimp only
            apply resolve_after_eval_fst_congr
            · exact hee op.node c1 c2 hcc
            · rw [hc1, hc2]
              exact hcc oid
      | none =>
        dsimp only
        have hlit := hiv iid (by rw [hconn]; exact hcn)
        cases h1 : slotGet g1.inputs iid with
        | none =>
          cases h2 : slotGet g2.inputs iid with
          | none => rfl
          | some p2 =>
            rw [h1, h2] at hlit
            simp at hlit
        | some p1 =>
          cases h2 : slotGet g2.inputs iid with
          | none =>
            rw [h1, h2] at hlit
            simp at hlit
          | some p2 =>
            rw [h1, h2] at hlit
            simp only [Option.map_some'] at hlit
            injection hlit with hv
            dsimp only
            rw [hv]

/-- Outcome congruence for the body of evaluate_node. -/
theorem evaluate_node_core_fst_congr
    (e1 e2 : NodeId → OutputsCache → Outcome Value × OutputsCache)
    (g1 g2 : Graph) (hg : litAgree g1 g2)
    (hee : ∀ n c1 c2, cacheEquiv c1 c2 → (e1 n c1).1 = (e2 n c2).1)
    (hc1 : ∀ n c, (e1 n c).2 = c) (hc2 : ∀ n c, (e2 n c).2 = c)
    (nid : NodeId) (c1 c2 : OutputsCache) (hcc : cacheEquiv c1 c2) :
    (evaluate_node_core e1 g1 nid c1).1 = (evaluate_node_core e2 g2 nid c2).1 := by
  have hni : ∀ name d1 d2, cacheEquiv d1 d2 →
      (node_input_core (evaluate_input_core e1 g1 nid name d1)).1
        = (node_input_core (evaluate_input_core e2 g2 nid name d2)).1 :=
    fun name d1 d2 hdd => node_input_core_fst_congr _ _
      (evaluate_input_core_fst_congr e1 e2 g1 g2 hg hee hc1 hc2 nid name d1 d2 hdd)
  have hs1 : ∀ name d, (node_input_core (evaluate_input_core e1 g1 nid name d)).2 = d := by
    intro name d
    rw [node_input_core_snd, evaluate_input_core_snd e1 hc1]
  have hs2 : ∀ name d, (node_input_core (evaluate_input_core e2 g2 nid name d)).2 = d := by
    intro name d
    rw [node_input_core_snd, evaluate_input_core_snd e2 hc2]
  unfold evaluate_node_core
  rw [hg.1]
  cases hnode : slotGet g2.nodes nid with
  | none => rfl
  | some node =>
    dsimp only
    cases ht : node.user_data.template
    apply and_then_fst_congr
    · exact hni nameA c1 c2 hcc
    · rw [hs1 nameA c1, hs2 nameA c2]
      apply and_then_fst_congr
      · exact hni nameB c1 c2 hcc
      · rw [hs1 nameB c1, hs2 nameB c2]
        exact hni nameOut c1 c2 hcc

/-- Master congruence for the fueled evaluator: over graphs that agree
on everything except literals stored on connected inputs, and over
observably equal caches, every evaluation returns the same outcome. -/
theorem evaluate_node_fst_congr (g1 g2 : Graph) (hg : litAgree g1 g2) :
    ∀ fuel nid c1 c2, cacheEquiv c1 c2 →
      (evaluate_node fuel g1 nid c1).1 = (evaluate_node fuel g2 nid c2).1 := by
  intro fuel
  induction fuel with
  | zero => intro nid c1 c2 hcc; rfl
  | succ fuel ih =>
    intro nid c1 c2 hcc
    show (evaluate_node_core (fun n c => evaluate_node fuel g1 n c) g1 nid c1).1
      = (evaluate_node_core (fun n c => evaluate_node fuel g2 n c) g2 nid c2).1
    exact evaluate_node_core_fst_congr _ _ g1 g2 hg
      (fun n d1 d2 hdd => ih n d1 d2 hdd)
      (fun n c => evaluate_node_snd fuel g1 n c)
      (fun n c => evaluate_node_snd fuel g2 n c)
      nid c1 c2 hcc

/-- evaluate_node never returns an error value, at any fuel, on any
graph: a returned error of evaluate_input is converted into a panic by
the expect of node_input before evaluate_node can propagate it. -/
theorem evaluate_node_not_err (fuel : Nat) (g : Graph) (nid : NodeId) (c : OutputsCache) :
    (evaluate_node fuel g nid c).1.isErr = false := by
  cases fuel with
  | zero => rfl
  | succ fuel =>
    show (evaluate_node_core (fun n c => evaluate_node fuel g n c) g nid c).1.isErr = false
    unfold evaluate_node_core
    cases hnode : slotGet g.nodes nid with
    | none => rfl
    | some node =>
      dsimp only
      cases ht : node.user_data.template
      apply and_then_not_err
      · exact node_input_core_not_err _
      · intro d
        apply and_then_not_err
        · exact node_input_core_not_err _
        · intro d2
          exact node_input_core_not_err _

/-- On a graph where the node exists but has no input port of the asked
name, node_input panics with the message failed: the NoParameterNamed
error produced inside evaluate_input is destroyed by the expect. -/
theorem node_input_unknown_name_panics (fuel : Nat) (g : Graph) (nid : NodeId)
    (name : String) (c : OutputsCache) (node : Node)
    (h1 : slotGet g.nodes nid = some node) (h2 : node.get_input name = none) :
    node_input fuel g nid name c = (Outcome.panicked failedMsg, c) := by
  show node_input_core
      (evaluate_input_core (fun n c => evaluate_node fuel g n c) g nid name c)
    = (Outcome.panicked failedMsg, c)
  unfold evaluate_input_core
  rw [h1]
  dsimp only
  rw [h2]
  rfl

/-- On any graph in which no node has an input port named out,
evaluate_node never returns successfully: the final statement of its
single template arm asks for the input out, which fails. -/
theorem evaluate_node_never_ok (g : Graph) (hno : noInputNamedOut g = true)
    (fuel : Nat) (nid : NodeId) (c : OutputsCache) (v : Value) :
    (evaluate_node fuel g nid c).1 ≠ Outcome.ok v := by
  cases fuel with
  | zero => exact fun h => Outcome.noConfusion h
  | succ fuel =>
    show (evaluate_node_core (fun n c => evaluate_node fuel g n c) g nid c).1 ≠ Outcome.ok v
    unfold evaluate_node_core
    cases hnode : slotGet g.nodes nid with
    | none => exact fun h => Outcome.noConfusion h
    | some node =>
      dsimp only
      cases ht : node.user_data.template
      have hgi : node.get_input nameOut = none := by
        have hmem := slotGet_mem g.nodes nid node hnode
        have hall := List.all_eq_true.mp hno (nid, node) hmem
        exact Option.isNone_iff_eq_none.mp hall
      have hfin : ∀ cc, (node_input_core (evaluate_input_core
          (fun n c => evaluate_node fuel g n c) g nid nameOut cc)).1
            = Outcome.panicked failedMsg := by
        intro cc
        unfold evaluate_input_core
        rw [hnode]
        dsimp only
        rw [hgi]
        rfl
      apply and_then_ne_ok
      intro d
      apply and_then_ne_ok
      intro d2
      rw [hfin d2]
      exact fun h => Outcome.noConfusion h

/-- One step of the unbounded recursion on a cyclic graph: when the
first input of the node is connected to an output whose producing node
exhausts the fuel, the node itself exhausts the fuel. -/
theorem evaluate_node_fuelOut_step (g : Graph) (fuel : Nat) (nid : NodeId)
    (node : Node) (iid : InputId) (oid : OutputId) (op : OutputParam) (c : OutputsCache)
    (h1 : slotGet g.nodes nid = some node)
    (h2 : node.get_input nameA = some iid)
    (h3 : g.connection iid = some oid)
    (h4 : slotGet c oid = none)
    (h5 : slotGet g.outputs oid = some op)
    (h6 : (evaluate_node fuel g op.node c).1 = Outcome.fuelOut) :
    (evaluate_node (fuel + 1) g nid c).1 = Outcome.fuelOut := by
  show (evaluate_node_core (fun n c => evaluate_node fuel g n c) g nid c).1 = Outcome.fuelOut
  unfold evaluate_node_core
  rw [h1]
  dsimp only
  cases ht : node.user_data.template
  apply and_then_fuelOut
  unfold evaluate_input_core
  rw [h1]
  dsimp only
  rw [h2]
  dsimp only
  rw [h3]
  dsimp only
  rw [h4]
  dsimp only
  rw [h5]
  dsimp only
  rcases hre : evaluate_node fuel g op.node c with ⟨o, d⟩
  rw [hre] at h6
  simp only at h6
  subst h6
  rfl

/-- Claim C1: in the two-node scenario the source never returns the
upstream value and never populates the cache.  Evaluating node 1 of
g_pair (whose input A is connected to node 0's output) panics with the
expect message failed, with the cache still empty; and in general
evaluate_node returns its cache argument unchanged at every fuel, so no
produced output value is ever inserted into the cache, contrary to the
claim (populate_output is never called by evaluate_node). -/
theorem C1_two_node_eval_panics_and_cache_stays_empty :
    evaluate_node 3 g_pair 1 [] = (Outcome.panicked failedMsg, []) ∧
    ∀ fuel g nid c, (evaluate_node fuel g nid c).2 = c :=
  ⟨by rfl, evaluate_node_snd⟩

/-- Claim C2 (amended): the source has no cycle detection and no
CyclicDependency error; on the two-node cycle graph, evaluation of
either node with a fresh cache exhausts every fuel bound, i.e. the
source recursion never terminates. -/
theorem C2_cycle_exhausts_every_fuel :
    ∀ fuel, (evaluate_node fuel g_cycle 0 []).1 = Outcome.fuelOut ∧
      (evaluate_node fuel g_cycle 1 []).1 = Outcome.fuelOut := by
  intro fuel
  induction fuel with
  | zero => exact ⟨rfl, rfl⟩
  | succ fuel ih =>
    constructor
    · exact evaluate_node_fuelOut_step g_cycle fuel 0 _ 10 21 _ [] rfl rfl rfl rfl rfl ih.2
    · exact evaluate_node_fuelOut_step g_cycle fuel 1 _ 12 20 _ [] rfl rfl rfl rfl rfl ih.1

/-- Claim C2, counterexample to the claim as stated: evaluating the
cyclic graph does not fail with any error — at the concrete fuel bound 9
the embedding reports exhausted fuel (unbounded recursion), and the
cache is untouched. -/
theorem C2_counterexample : evaluate_node 9 g_cycle 0 [] = (Outcome.fuelOut, []) := by rfl

/-- Claim C3 (amended): the cache-hit short-circuit of evaluate_input is
real — when the connected output is already cached, the cached value is
returned at once, the cache is unchanged and no recursion happens (the
statement holds even at fuel zero). -/
theorem C3_cache_hit_returns_cached_value (fuel : Nat) (g : Graph) (nid : NodeId)
    (name : String) (c : OutputsCache) (node : Node) (iid : InputId) (oid : OutputId)
    (v : Value) (h1 : slotGet g.nodes nid = some node)
    (h2 : node.get_input name = some iid) (h3 : g.connection iid = some oid)
    (h4 : slotGet c oid = some v) :
    evaluate_input fuel g nid name c = (Outcome.ok v, c) := by
  show evaluate_input_core (fun n c => evaluate_node fuel g n c) g nid name c
    = (Outcome.ok v, c)
  unfold evaluate_input_core
  rw [h1]
  dsimp only
  rw [h2]
  dsimp only
  rw [h3]
  dsimp only
  rw [h4]

/-- Claim C3, witness: a concrete cache hit on g_pair, at fuel zero. -/
theorem C3_witness :
    evaluate_input 0 g_pair 1 nameA [(20, Value.component)]
      = (Outcome.ok Value.component, [(20, Value.component)]) :=
  C3_cache_hit_returns_cached_value 0 g_pair 1 nameA [(20, Value.component)]
    _ 12 20 Value.component rfl rfl rfl rfl

/-- Claim C3, counterexample to the diamond consequence: evaluating the
sink of the diamond graph does not invoke any computation function once
per node — it panics, because evaluate_node never populates the cache
and fails on the nonexistent input out of the shared upstream node. -/
theorem C3_counterexample : evaluate_node 5 g_diamond 3 [] = (Outcome.panicked failedMsg, []) := by
  rfl

/-- Claim C4: the premise of the claim is unsatisfiable and the cache is
never populated.  On every graph whose nodes have no input named out
(every graph assembled by build_node), evaluate_node never returns
successfully, so the success of the recursive call assumed by the claim
never occurs; and concretely, resolving the connected input A of node 1
of g_pair panics with failed inside the recursive call — the cache
population promised by the expect message Cache should be populated
never happens, since populate_output is never called. -/
theorem C4_success_premise_unsatisfiable :
    (∀ g, noInputNamedOut g = true →
      ∀ fuel nid c v, (evaluate_node fuel g nid c).1 ≠ Outcome.ok v) ∧
    evaluate_input 3 g_pair 1 nameA [] = (Outcome.panicked failedMsg, []) :=
  ⟨fun g hno fuel nid c v => evaluate_node_never_ok g hno fuel nid c v, by rfl⟩

/-- Claim C4, witness: the unsatisfiability theorem applied to the
concrete two-node graph. -/
theorem C4_witness : (evaluate_node 3 g_pair 1 []).1 ≠ Outcome.ok Value.component :=
  C4_success_premise_unsatisfiable.1 g_pair (by rfl) 3 1 [] Value.component

/-- Claim C5 (amended): failures surface as panics, not as returned
errors.  evaluate_node never returns an error value on any graph at any
fuel (a missing node id panics on slotmap indexing); and when a node
exists but lacks the asked input name, the NoParameterNamed error raised
inside evaluate_input is converted by the expect of node_input into a
panic with message failed.  Nothing is retried or recovered. -/
theorem C5_failures_are_panics_not_returned_errors :
    (∀ fuel g nid c, (evaluate_node fuel g nid c).1.isErr = false) ∧
    (∀ fuel g nid name c node, slotGet g.nodes nid = some node →
      Node.get_input node name = none →
      node_input fuel g nid name c = (Outcome.panicked failedMsg, c)) :=
  ⟨evaluate_node_not_err,
    fun fuel g nid name c node h1 h2 =>
      node_input_unknown_name_panics fuel g nid name c node h1 h2⟩

/-- Claim C5, witness: asking node 0 of the leaf graph for the
nonexistent input out panics with failed. -/
theorem C5_witness : node_input 1 g_leaf 0 nameOut [] = (Outcome.panicked failedMsg, []) :=
  C5_failures_are_panics_not_returned_errors.2 1 g_leaf 0 nameOut [] _ rfl rfl

/-- Claim C5, counterexample to the claim as stated: requesting a node
id that is not in the graph does not produce a returned NotFound error —
it panics on the slotmap index. -/
theorem C5_counterexample :
    evaluate_node 1 Graph.empty 0 [] = (Outcome.panicked keyPanicMsg, []) := by rfl

/-- Claim C6 (amended): evaluate_input on an input port with no incoming
connection returns the port's inline literal value directly (at any
fuel, without touching the cache). -/
theorem C6_unconnected_input_returns_literal (fuel : Nat) (g : Graph) (nid : NodeId)
    (name : String) (c : OutputsCache) (node : Node) (iid : InputId) (p : InputParam)
    (h1 : slotGet g.nodes nid = some node) (h2 : node.get_input name = some iid)
    (h3 : g.connection iid = none) (h4 : slotGet g.inputs iid = some p) :
    evaluate_input fuel g nid name c = (Outcome.ok (Value.params p.value), c) := by
  show evaluate_input_core (fun n c => evaluate_node fuel g n c) g nid name c
    = (Outcome.ok (Value.params p.value), c)
  unfold evaluate_input_core
  rw [h1]
  dsimp only
  rw [h2]
  dsimp only
  rw [h3]
  dsimp only
  rw [h4]

/-- Claim C6, witness: input A of the leaf node resolves to the literal
parameters stored on it by build_node. -/
theorem C6_witness :
    evaluate_input 0 g_leaf 0 nameA [] = (Outcome.ok (Value.params defaultLiteral), []) :=
  C6_unconnected_input_returns_literal 0 g_leaf 0 nameA [] _ 10 _ rfl rfl rfl rfl

/-- Claim C6, counterexample to the leaf-evaluation consequence: a node
with only literal, unconnected inputs does not evaluate to those
literals — evaluate_node panics resolving the nonexistent input out. -/
theorem C6_counterexample : evaluate_node 1 g_leaf 0 [] = (Outcome.panicked failedMsg, []) := by
  rfl

/-- Claim C7: an input's inline literal has no effect on evaluation
while that input is connected — overwriting the literal stored on a
connected input yields identical evaluation results (same outcome and
same final cache) for every requested node, every fuel and every
starting cache. -/
theorem C7_connected_literal_has_no_effect (g : Graph) (iid : InputId) (oid : OutputId)
    (v : NodeParameters) (h : g.connection iid = some oid) (fuel : Nat) (nid : NodeId)
    (c : OutputsCache) :
    evaluate_node fuel (setInputValue g iid v) nid c = evaluate_node fuel g nid c := by
  have h1 := evaluate_node_fst_congr (setInputValue g iid v) g
    (litAgree_setInputValue g iid oid v h) fuel nid c c (fun k => rfl)
  have h2 : (evaluate_node fuel (setInputValue g iid v) nid c).2
      = (evaluate_node fuel g nid c).2 := by
    rw [evaluate_node_snd, evaluate_node_snd]
  exact Prod.ext h1 h2

/-- Claim C7, witness: overwriting the literal on the connected input 12
of g_pair does not change the evaluation of node 1. -/
theorem C7_witness :
    evaluate_node 3 (setInputValue g_pair 12 ⟨7, 7, 7⟩) 1 []
      = evaluate_node 3 g_pair 1 [] :=
  C7_connected_literal_has_no_effect g_pair 12 20 ⟨7, 7, 7⟩ rfl 3 1 []

/-- Claim C8: evaluation is deterministic — two evaluate_node calls on
the same graph and requested node, each with a fresh (empty-lookup)
output cache and no graph edits in between, return the same outcome.
The evaluator is a pure function of the graph and the cache contents. -/
theorem C8_fresh_cache_determinism (fuel : Nat) (g : Graph) (nid : NodeId)
    (c1 c2 : OutputsCache) (h1 : ∀ k, slotGet c1 k = none) (h2 : ∀ k, slotGet c2 k = none) :
    (evaluate_node fuel g nid c1).1 = (evaluate_node fuel g nid c2).1 :=
  evaluate_node_fst_congr g g (litAgree_refl g) fuel nid c1 c2
    (fun k => by rw [h1 k, h2 k])

/-- Claim C8, witness: two runs on g_pair with fresh caches agree. -/
theorem C8_witness : (evaluate_node 3 g_pair 1 []).1 = (evaluate_node 3 g_pair 1 []).1 :=
  C8_fresh_cache_determinism 3 g_pair 1 [] [] (fun _ => rfl) (fun _ => rfl)

/-- Claim C9: populate_output with an existing output port returns ok of
the inserted value and the cache extended at exactly that output id —
the entry is observable there and lookups at every other key are
unchanged; with a missing output name it returns the NoParameterNamed
error and the untouched cache. -/
theorem C9_populate_output_frame (g : Graph) (c : OutputsCache) (nid : NodeId)
    (name : String) (v : Value) (node : Node) (h : slotGet g.nodes nid = some node) :
    (∀ oid, node.get_output name = some oid →
      populate_output g c nid name v = (Outcome.ok v, cacheInsert c oid v) ∧
      slotGet (cacheInsert c oid v) oid = some v ∧
      ∀ k, k ≠ oid → slotGet (cacheInsert c oid v) k = slotGet c k) ∧
    (node.get_output name = none →
      populate_output g c nid name v
        = (Outcome.err (EguiGraphError.NoParameterNamed nid name), c)) := by
  constructor
  · intro oid hoid
    refine ⟨?_, ?_, ?_⟩
    · unfold populate_output
      rw [h]
      dsimp only
      rw [hoid]
    · simp [cacheInsert, slotGet]
    · intro k hk
      simp only [cacheInsert, slotGet]
      rw [if_neg (fun he => hk he.symm)]
  · intro hnone
    unfold populate_output
    rw [h]
    dsimp only
    rw [hnone]

/-- Claim C9, witness: populating the output out of the leaf node
inserts the value under the output id 20 and returns it. -/
theorem C9_witness :
    populate_output g_leaf [] 0 nameOut Value.component
      = (Outcome.ok Value.component, cacheInsert [] 20 Value.component) :=
  ((C9_populate_output_frame g_leaf [] 0 nameOut Value.component _ rfl).1 20 rfl).1

/-- Claim C10: for a CreateComponent node, once inputs A and B evaluate
successfully, evaluate_node returns exactly node_input applied to the
name out — the result is produced through the input-port lookup path
(evaluate_input and get_input), not by a computation followed by
populate_output; and evaluate_node never writes the cache at all, in
particular never a key belonging to an output port of the evaluated
node. -/
theorem C10_out_resolved_through_input_path :
    (∀ fuel g nid node c a ca b cb,
      slotGet g.nodes nid = some node →
      node_input fuel g nid nameA c = (Outcome.ok a, ca) →
      node_input fuel g nid nameB ca = (Outcome.ok b, cb) →
      evaluate_node (fuel + 1) g nid c = node_input fuel g nid nameOut cb) ∧
    (∀ fuel g nid c, (evaluate_node fuel g nid c).2 = c) := by
  constructor
  · intro fuel g nid node c a ca b cb hnode hA hB
    show evaluate_node_core (fun n c => evaluate_node fuel g n c) g nid c
      = node_input fuel g nid nameOut cb
    unfold evaluate_node_core
    rw [hnode]
    dsimp only
    cases ht : node.user_data.template
    have hA2 : node_input_core (evaluate_input_core
        (fun n c => evaluate_node fuel g n c) g nid nameA c) = (Outcome.ok a, ca) := hA
    have hB2 : node_input_core (evaluate_input_core
        (fun n c => evaluate_node fuel g n c) g nid nameB ca) = (Outcome.ok b, cb) := hB
    rw [hA2]
    dsimp only [and_then]
    rw [hB2]
    dsimp only [and_then]
    rfl
  · exact evaluate_node_snd

/-- Claim C10, witness: on the leaf graph, inputs A and B evaluate to
their literals and evaluate_node at fuel one equals node_input on out. -/
theorem C10_witness : evaluate_node 1 g_leaf 0 [] = node_input 0 g_leaf 0 nameOut [] :=
  C10_out_resolved_through_input_path.1 0 g_leaf 0 _ [] _ [] _ [] rfl rfl rfl

end BlockEgui
